import Mathlib

/-!
Shallow embedding of the fraud risk decision engine of the
intelligent-fraud-detection-chatbot repository, together with proofs
settling the spec claims about it.

Conventions of the embedding:
* Python floats are modelled as exact rationals (`ℚ`).  `round(x, n)` is
  modelled with round-half-to-even on `ℚ` (Python's rounding mode).
* Python exceptions are modelled with `Except Unit`; an external call that
  may raise is passed in as an `Except`/`Option` value at the call boundary.
* External collaborators (DB lookups, spaCy, SentenceTransformer, TextBlob,
  weather/geo APIs) are oracles: their outputs are parameters of the
  embedded functions, exactly at the boundary where the source calls them.
-/

namespace FraudChatbot

/-- Whitespace predicate used to model Python `str.strip()` /
truthiness of stripped strings (ASCII whitespace set). -/
def pyIsSpace (c : Char) : Bool :=
  c = ' ' || c = '\t' || c = '\n' || c = '\r' || c = '\x0b' || c = '\x0c'

/-- Model of `not text or not text.strip()`: the string is empty or
consists only of whitespace characters. -/
def isBlankStr (s : String) : Bool :=
  s.toList.all pyIsSpace

/-- Does `pat` occur as a prefix of `s` (on character lists)? -/
def listStartsWith : List Char → List Char → Bool
  | [], _ => true
  | _ :: _, [] => false
  | a :: as, b :: bs => a = b && listStartsWith as bs

/-- Does `pat` occur as a contiguous substring of `s` (on character lists)?
Models Python `pat in s`. -/
def listContainsSub (pat : List Char) (s : List Char) : Bool :=
  listStartsWith pat s ||
    match s with
    | [] => false
    | _ :: tail => listContainsSub pat tail

/-- String-level substring test, modelling Python `pat in s`. -/
def strContains (s pat : String) : Bool :=
  listContainsSub pat.toList s.toList

/-- ASCII lowering of one character, modelling Python `str.lower` on the
character sets this codebase compares (alarm tags, provider names, env
names are ASCII). -/
def pyLowerChar (c : Char) : Char :=
  if 'A' ≤ c ∧ c ≤ 'Z' then Char.ofNat (c.toNat + 32) else c

/-- Model of Python `str.lower()`. -/
def pyLower (s : String) : String :=
  String.mk (s.toList.map pyLowerChar)

/-- Model of Python `str.strip()`: drop leading and trailing whitespace. -/
def pyStrip (s : String) : String :=
  String.mk (((s.toList.dropWhile pyIsSpace).reverse.dropWhile pyIsSpace).reverse)

/-- Model of Python `str.replace(a, b)` for one-character arguments (the
only form this codebase uses: `replace(" ", "_")`). -/
def pyReplaceChar (a b : Char) (s : String) : String :=
  String.mk (s.toList.map (fun c => if c = a then b else c))

/-- Splitting on a one-character separator, accumulator form. -/
def splitOnCharAux (sep : Char) (cur : List Char) :
    List Char → List (List Char)
  | [] => [cur.reverse]
  | c :: rest =>
    if c = sep then cur.reverse :: splitOnCharAux sep [] rest
    else splitOnCharAux sep (c :: cur) rest

/-- Model of Python `str.split(sep)` for a one-character separator (the
only form this codebase uses: `split(":", 1)` — of which only the head
and the joined tail are consumed). -/
def pySplitOnChar (sep : Char) (s : String) : List String :=
  (splitOnCharAux sep [] s.toList).map String.mk

/-- Model of Python `sep.join(parts)`. -/
def pyJoin (sep : String) : List String → String
  | [] => ""
  | [p] => p
  | p :: rest => p ++ sep ++ pyJoin sep rest

/-- Round-half-to-even on rationals (the rounding mode of Python `round`). -/
def roundHalfEven (x : ℚ) : ℤ :=
  if x - (⌊x⌋ : ℚ) < 1/2 then ⌊x⌋
  else if 1/2 < x - (⌊x⌋ : ℚ) then ⌊x⌋ + 1
  else if Even ⌊x⌋ then ⌊x⌋ else ⌊x⌋ + 1

/-- Model of Python `round(x, 2)` on rationals. -/
def pyRound2 (x : ℚ) : ℚ :=
  (roundHalfEven (x * 100) : ℚ) / 100

/-- Model of Python `round(x, 3)` on rationals. -/
def pyRound3 (x : ℚ) : ℚ :=
  (roundHalfEven (x * 1000) : ℚ) / 1000

/-- Alarm severity enum of `src/models/fraud.py` (`AlarmSeverity`). -/
inductive AlarmSeverity where
  | low
  | medium
  | high
deriving DecidableEq, Repr

/-- Decision enum of `src/models/fraud.py` (`Decision`). -/
inductive Decision where
  | approve
  | review
  | reject
deriving DecidableEq, Repr

/-- The `.value` string of the `Decision` enum. -/
def Decision.value : Decision → String
  | .approve => "Approve"
  | .review => "Review"
  | .reject => "Reject"

/-- `FraudAlarm` of `src/models/fraud.py`: alarm type identifier,
human-readable description, severity, optional evidence map. -/
structure FraudAlarm where
  type : String
  description : String
  severity : AlarmSeverity
  evidence : Option (List (String × String)) := none
deriving DecidableEq, Repr

/-- `ClaimData` of `src/models/claim.py`.  The timestamp is modelled as an
optional integer instant; pydantic defaults are kept. -/
structure ClaimData where
  claimant_id : String
  amount : ℚ
  report_delay_days : ℕ := 0
  provider : String := ""
  notes : String := ""
  location : String := ""
  is_new_bank : Bool := false
  timestamp : Option ℤ := none
deriving DecidableEq, Repr

/-- `FraudFeatures` of `src/models/fraud.py`: the fixed 14-slot feature
vector. -/
structure FraudFeatures where
  amount_normalized : ℚ
  delay_days : ℕ := 0
  is_new_bank : Bool := false
  is_out_of_network : Bool := false
  num_alarms : ℕ := 0
  high_severity_count : ℕ := 0
  repeat_count : ℕ := 0
  text_similarity_score : ℚ := 0
  location_distance : ℚ := 0
  time_anomaly_score : ℚ := 0
  suspicious_keyword_count : ℕ := 0
  sentiment_score : ℚ := 0
  vendor_risk_score : ℚ := 0
  external_mismatch_count : ℕ := 0
deriving DecidableEq, Repr

/-- The all-default ("safe zeroed-out") feature set returned by the
exception handler of `extract_features` in `src/fraud_engine/ml_inference.py`. -/
def zeroFeatures : FraudFeatures :=
  { amount_normalized := 0
    delay_days := 0
    is_new_bank := false
    is_out_of_network := false
    num_alarms := 0
    high_severity_count := 0
    repeat_count := 0
    text_similarity_score := 0
    location_distance := 0
    time_anomaly_score := 0
    suspicious_keyword_count := 0
    sentiment_score := 0
    vendor_risk_score := 0
    external_mismatch_count := 0 }

/-! ## Decision policy (`src/fraud_engine/decision_policy.py`) -/

/-- `THRESHOLD_APPROVE` of `decision_policy.py`. -/
def THRESHOLD_APPROVE : ℚ := 30/100

/-- `THRESHOLD_REVIEW` of `decision_policy.py`. -/
def THRESHOLD_REVIEW : ℚ := 70/100

/-- `ALARM_WEIGHT` of `decision_policy.py`. -/
def ALARM_WEIGHT : ℚ := 10/100

/-- `HIGH_SEVERITY_WEIGHT` of `decision_policy.py`. -/
def HIGH_SEVERITY_WEIGHT : ℚ := 20/100

/-- Count of HIGH-severity alarms in a list. -/
def highCount (alarms : List FraudAlarm) : ℕ :=
  (alarms.filter (fun a => a.severity = AlarmSeverity.high)).length

/-- `_compute_risk_score` of `decision_policy.py`:
`round(min(prob, 100) / 100.0 + num_alarms * 0.10 + high_count * 0.20, 2)`. -/
def computeRiskScore (prob : ℚ) (alarms : List FraudAlarm) : ℚ :=
  let p := min prob 100 / 100
  let num_alarms : ℚ := alarms.length
  let high_count : ℚ := highCount alarms
  let alarm_weight := num_alarms * ALARM_WEIGHT + high_count * HIGH_SEVERITY_WEIGHT
  pyRound2 (p + alarm_weight)

/-- The decision/reason pair computed by `get_decision` of
`decision_policy.py` (the `fraud_prob` argument is on the source's 0-100
scale). -/
def getDecisionPair (fraud_prob : ℚ) (alarms : List FraudAlarm) :
    Decision × String :=
  let total_risk := computeRiskScore fraud_prob alarms
  let num_alarms := alarms.length
  if total_risk < THRESHOLD_APPROVE ∨ (num_alarms = 0 ∧ fraud_prob < 20) then
    (Decision.approve, "Low risk: minimal alarms and low model confidence.")
  else if total_risk < THRESHOLD_REVIEW ∨ num_alarms ≤ 3 then
    (Decision.review, "Medium risk: moderate alarms or uncertain ML confidence.")
  else
    (Decision.reject, "High risk: multiple or severe alarms + high probability.")

/-- The decision returned by `get_decision` with `return_details=False`. -/
def getDecisionD (fraud_prob : ℚ) (alarms : List FraudAlarm) : Decision :=
  (getDecisionPair fraud_prob alarms).1

/-- The dict returned by `get_decision` with `return_details=True`. -/
structure DecisionDetails where
  decision : String
  total_risk : ℚ
  fraud_prob : ℚ
  num_alarms : ℕ
  high_severity : ℕ
  reason : String
deriving DecidableEq, Repr

/-- `get_decision` with `return_details=True` of `decision_policy.py`;
the optional `claim` argument is part of the signature (it is only read
when building the log line, see `getDecisionLogged`). -/
def getDecisionDetails (fraud_prob : ℚ) (alarms : List FraudAlarm)
    (claim : Option ClaimData) : DecisionDetails :=
  let pr := getDecisionPair fraud_prob alarms
  let _ := claim
  { decision := pr.1.value
    total_risk := computeRiskScore fraud_prob alarms
    fraud_prob := fraud_prob
    num_alarms := alarms.length
    high_severity := highCount alarms
    reason := pr.2 }

/-- `get_decision` together with the `[DECISION]` log line it emits.  The
log line (second component) is the only place the `claim` argument is
read (`getattr(claim, "claimant_id", "unknown")`); the returned
decision/reason (first component) never depends on it. -/
def getDecisionLogged (fraud_prob : ℚ) (alarms : List FraudAlarm)
    (claim : Option ClaimData) : (Decision × String) × String :=
  let pr := getDecisionPair fraud_prob alarms
  let cid := match claim with
    | some c => c.claimant_id
    | none => "unknown"
  (pr, "[DECISION] claimant_id=" ++ cid ++ " decision=" ++ pr.1.value
        ++ " total_risk=" ++ toString (computeRiskScore fraud_prob alarms)
        ++ " reason=" ++ pr.2)

/-- Ordering APPROVE < REVIEW < REJECT on decisions. -/
def decisionLevel : Decision → ℕ
  | .approve => 0
  | .review => 1
  | .reject => 2

/-- Modelled from the spec: the decision scheme stated in §4.4 of the
spec ("REJECT if probability ≥ 0.75 OR high_count ≥ 2, else REVIEW if
probability ≥ 0.30 OR len(alarms) > 0, else APPROVE"), with the incoming
probability normalized to [0,1] the same way the source normalizes it
(`min(prob, 100) / 100`).  This definition follows the spec's words and
exists only to be compared with `getDecisionPair`, which follows the
source. -/
def specDecisionPolicy (fraud_prob : ℚ) (alarms : List FraudAlarm) : Decision :=
  let p := min fraud_prob 100 / 100
  if 75/100 ≤ p ∨ 2 ≤ highCount alarms then Decision.reject
  else if 30/100 ≤ p ∨ alarms ≠ [] then Decision.review
  else Decision.approve

/-! ## ML inference (`src/fraud_engine/ml_inference.py`) -/

/-- `_fallback_prob` of `ml_inference.py`:
`min(100.0, len(alarms) * 10.0)` — note the 0-100 percentage scale. -/
def fallbackProb (alarms : List FraudAlarm) : ℚ :=
  min 100 ((alarms.length : ℚ) * 10)

/-- `get_fraud_probability` of `ml_inference.py`.  The global model state
is the `isModelLoaded` flag; `modelProba` is the outcome of
`model.predict_proba(features_array)[0][1]` (`none` models the call
raising).  On the model path the result is `proba * 100.0`. -/
def getFraudProbability (isModelLoaded : Bool) (modelProba : Option ℚ)
    (alarms : List FraudAlarm) : ℚ :=
  if ¬isModelLoaded then fallbackProb alarms
  else
    match modelProba with
    | some proba => proba * 100
    | none => fallbackProb alarms

/-- The rule-only fallback on line 91 of
`src/api/endpoints/score_claim.py`: `min(1.0, len(alarms) * 0.1)`. -/
def endpointFallbackProb (alarms : List FraudAlarm) : ℚ :=
  min 1 ((alarms.length : ℚ) * (1/10))

/-- `require_ml_model` of `src/api/dependencies.py`: returns `True` in
local/test environments, raises HTTP 503 (modelled as `Except.error 503`)
when the model is disabled or not loaded in other environments, and
returns `True` otherwise.  It never returns `False`. -/
def requireMlModel (env : String) (mlEnabled isModelLoaded : Bool) :
    Except ℕ Bool :=
  if pyLower env ∈ ["local", "dev", "development", "test", "testing"] then
    Except.ok true
  else if ¬mlEnabled ∨ ¬isModelLoaded then
    Except.error 503
  else
    Except.ok true

/-- `FraudResponse.validate_probability` of `src/models/fraud.py`:
raises (modelled as `Except.error`) unless `0 ≤ v ≤ 1`, and rounds the
accepted value to 3 decimals. -/
def validateProbability (v : ℚ) : Except String ℚ :=
  if 0 ≤ v ∧ v ≤ 1 then Except.ok (pyRound3 v)
  else Except.error "Fraud probability must be between 0.0 and 1.0"

/-! ## NLP text analyzer (`src/nlp/text_analyzer.py`) -/

/-- `SUSPICIOUS_PHRASES` of `src/fraud_engine/constants.py`. -/
def SUSPICIOUS_PHRASES : List String :=
  ["staged accident", "fake injury", "quick cash", "exaggerated pain",
   "ghost patient", "duplicate claim", "cash only", "out-of-network",
   "new bank account", "late reporting", "blacklist hit", "fake vendor",
   "fraudulent billing", "false invoice", "no witnesses", "inflated bill"]

/-- The analysis dict returned by `analyze_text`; entities are the
label/text pairs collected from the NER and MONEY extraction. -/
structure AnalysisResult where
  suspicious_phrases : List String
  entities : List (String × String)
  keyword_count : ℕ
  similarity_scores : List ℚ
  max_similarity : ℚ
  sentiment : ℚ
  is_suspicious : Bool
  text_length : ℕ
deriving DecidableEq, Repr

/-- The all-default analysis returned by `analyze_text` for blank input. -/
def defaultAnalysis : AnalysisResult :=
  { suspicious_phrases := []
    entities := []
    keyword_count := 0
    similarity_scores := []
    max_similarity := 0
    sentiment := 0
    is_suspicious := false
    text_length := 0 }

/-- Oracle for the external NLP collaborators of `analyze_text`: the
response cache, the spaCy matcher, entity extraction (spaCy NER plus the
MONEY regex), the SentenceTransformer encoder (`Except.error` models the
call raising), TextBlob sentiment, and the configured similarity
threshold (`config.SIMILARITY_THRESHOLD`). -/
structure NlpEnv where
  cacheGet : String → Option AnalysisResult
  matcherPhrases : String → Option (List String)
  entitiesOf : String → List (String × String)
  encodeOk : String → Except Unit Unit
  encodeSim : String → String → Except Unit ℚ
  sentimentOf : String → Except Unit ℚ
  simThreshold : ℚ

/-- The similarity loop of `analyze_text`: blank past texts are skipped,
scores are appended rounded to 3 decimals, and a raising encoder call
aborts the loop keeping the scores appended so far (second component
`false` records that the surrounding `try` caught an exception). -/
def simLoop (f : String → Except Unit ℚ) (acc : List ℚ) :
    List String → List ℚ × Bool
  | [] => (acc, true)
  | prev :: rest =>
    if isBlankStr prev then simLoop f acc rest
    else
      match f prev with
      | Except.ok sim => simLoop f (acc ++ [pyRound3 sim]) rest
      | Except.error _ => (acc, false)

/-- `analyze_text` of `src/nlp/text_analyzer.py`.  Blank input returns
the all-default analysis before any model is loaded or consulted; the
non-blank branch mirrors the source: cache lookup, keyword filter over
`SUSPICIOUS_PHRASES`, matcher phrases deduplicated against the growing
list, oracled entity extraction, the guarded similarity block (a raised
exception leaves `max_similarity` at 0.0), guarded sentiment, and the
suspicion classification. -/
def analyzeText (env : NlpEnv) (text : String) (pastTexts : List String) :
    AnalysisResult :=
  if text = "" ∨ isBlankStr text then defaultAnalysis
  else
    match env.cacheGet text with
    | some cached => cached
    | none =>
      let lowerText := pyLower text
      let base := SUSPICIOUS_PHRASES.filter (fun kw => strContains lowerText kw)
      let phrases :=
        ((env.matcherPhrases lowerText).getD []).foldl
          (fun acc p => if p ∈ acc then acc else acc ++ [p]) base
      let keyword_count := phrases.length
      let entities := env.entitiesOf text
      let simPair :=
        if pastTexts = [] then ([], (0 : ℚ))
        else
          match env.encodeOk text with
          | Except.error _ => ([], (0 : ℚ))
          | Except.ok _ =>
            let r := simLoop (env.encodeSim text) [] pastTexts
            if r.2 then
              (r.1, if r.1 = [] then (0 : ℚ) else (r.1.max?).getD 0)
            else (r.1, (0 : ℚ))
      let sentiment := ((env.sentimentOf text).toOption).getD 0
      let is_suspicious :=
        decide (0 < keyword_count) || decide (env.simThreshold < simPair.2)
          || decide (sentiment < -(1/2))
      { suspicious_phrases := phrases
        entities := entities
        keyword_count := keyword_count
        similarity_scores := simPair.1
        max_similarity := simPair.2
        sentiment := sentiment
        is_suspicious := is_suspicious
        text_length := text.length }

/-! ## Feature extraction (`extract_features` of
`src/fraud_engine/ml_inference.py`) -/

/-- `extract_features` of `ml_inference.py`.  Alarms are the string
renderings the source matches on (`str(a).lower()`).  `dbRepeat` is the
outcome of the repeat-count DB query (`none`: no session was passed;
`some (Except.error _)`: the query raised — it has its own handler that
keeps `repeat_count = 0`).  `nlpResult` and `geoDistance` are the
outcomes of `analyze_text` and `calculate_location_distance`; if either
raises, the outer handler returns `zeroFeatures`. -/
def extract_features (claim : ClaimData) (alarms : List String)
    (dbRepeat : Option (Except Unit ℕ))
    (nlpResult : Except Unit AnalysisResult)
    (geoDistance : Except Unit (Option ℚ)) : FraudFeatures :=
  let attempt : Except Unit FraudFeatures := do
    let amount_norm := pyRound2 (claim.amount / 5000)
    let delay_days := claim.report_delay_days
    let is_new_bank := claim.is_new_bank
    let is_out_network := strContains (pyLower claim.provider) "out-of-network"
    let num_alarms := alarms.length
    let high_alarm_count :=
      (alarms.filter (fun a =>
        strContains (pyLower a) "high" || strContains (pyLower a) "blacklist")).length
    let repeat_count :=
      match dbRepeat with
      | none => 0
      | some (Except.ok n) => n
      | some (Except.error _) => 0
    let nlp ← nlpResult
    let similarity := pyRound3 nlp.max_similarity
    let keyword_count := nlp.keyword_count
    let sentiment := nlp.sentiment
    let dist ← geoDistance
    let distance := dist.getD 0
    let time_anomaly : ℚ :=
      if alarms.any (fun a => strContains (pyLower a) "time pattern") then 1 else 0
    let vendor_risk : ℚ :=
      if alarms.any (fun a => strContains (pyLower a) "vendor fraud") then 1 else 0
    let external_mismatch : ℕ :=
      if alarms.any (fun a => strContains (pyLower a) "external mismatch") then 1 else 0
    Except.ok
      { amount_normalized := amount_norm
        delay_days := delay_days
        is_new_bank := is_new_bank
        is_out_of_network := is_out_network
        num_alarms := num_alarms
        high_severity_count := high_alarm_count
        repeat_count := repeat_count
        text_similarity_score := similarity
        location_distance := distance
        time_anomaly_score := time_anomaly
        suspicious_keyword_count := keyword_count
        sentiment_score := sentiment
        vendor_risk_score := vendor_risk
        external_mismatch_count := external_mismatch }
  match attempt with
  | Except.ok f => f
  | Except.error _ => zeroFeatures

/-! ## Alarm orchestrator (`src/fraud_engine/alarms.py`) -/

/-- The `alarms += check_k(...)` sequence inside the single `try` block of
`check_all_alarms`: contributions are appended in order until the first
check that raises; the alarms appended so far are kept and every later
check is skipped (the shared `except` then logs and falls through). -/
def collectUntilError : List (Except Unit (List String)) → List String
  | [] => []
  | Except.ok l :: rest => l ++ collectUntilError rest
  | Except.error _ :: _ => []

/-- The legacy checks 1-5 of `check_all_alarms` (late reporting, new bank,
out-of-network, blacklist hit, suspicious text phrases).  `blacklist` is
the provider blacklist already resolved (see `checkAllAlarms` for the
lookup), `nlpSus` the outcome of the `analyze_text` call of check 5,
whose own `try/except` turns a raise into "no alarm from this check". -/
def legacyAlarms (claim : ClaimData) (blacklist : List String)
    (nlpSus : Except Unit (List String)) : List String :=
  let provider := pyLower claim.provider
  let notes := pyLower (pyStrip claim.notes)
  let a1 :=
    if 7 < claim.report_delay_days then
      ["[LATE-REPORT] Reported " ++ toString claim.report_delay_days
        ++ " days after incident (limit: 7 days)"]
    else []
  let a2 :=
    if claim.is_new_bank then
      ["[NEW-BANK] Payout requested to a new or unverified bank account"]
    else []
  let a3 :=
    if strContains provider "out-of-network" || strContains provider "non-network" then
      ["[OUT-NETWORK] Provider ’" ++ claim.provider
        ++ "’ not in approved insurer network"]
    else []
  let a4 :=
    match blacklist.find? (fun bl => strContains provider (pyLower bl)) with
    | some bl =>
      ["[BLACKLIST] Provider ’" ++ claim.provider
        ++ "’ flagged (blacklist match: " ++ bl ++ ")"]
    | none => []
  let a5 :=
    if notes ≠ "" then
      match nlpSus with
      | Except.ok sus =>
        let matched := SUSPICIOUS_PHRASES.filter (fun p => strContains notes p) ++ sus
        if matched ≠ [] then
          ["[TEXT-FLAG] Suspicious language detected: "
            ++ pyJoin ", " (matched.take 3)]
        else []
      | Except.error _ => []
    else []
  a1 ++ a2 ++ a3 ++ a4 ++ a5

/-- `check_all_alarms` of `alarms.py`.  `blacklistSrc` models the
blacklist source: `none` when no DB session is given (the source then
uses the literal default list), `some r` the outcome of
`get_blacklist_providers(db)` — that call is not guarded, so its raise
propagates out of the whole function.  `modular` is the ordered outcomes
of the 8 modular checks, run under one shared `try`. -/
def checkAllAlarms (claim : ClaimData)
    (blacklistSrc : Option (Except Unit (List String)))
    (nlpSus : Except Unit (List String))
    (modular : List (Except Unit (List String))) :
    Except Unit (List String) := do
  let blacklist ←
    match blacklistSrc with
    | none => Except.ok ["shady_clinic", "fake_vendor"]
    | some r => r
  Except.ok (legacyAlarms claim blacklist nlpSus ++ collectUntilError modular)

/-! ## Endpoint alarm construction (`src/api/endpoints/score_claim.py`) -/

/-- The alarm type derived on lines 52-54 of `score_claim.py`:
`raw_alarm.split(":", 1)[0].strip().lower().replace(" ", "_")`. -/
def deriveType (raw : String) : String :=
  pyReplaceChar ' ' '_'
    (pyLower (pyStrip ((pySplitOnChar ':' raw).headD raw)))

/-- The alarm description derived on line 55 of `score_claim.py`: the
text after the first colon, stripped; the whole raw string if there is
no colon. -/
def deriveDescription (raw : String) : String :=
  let parts := pySplitOnChar ':' raw
  if 1 < parts.length then pyStrip (pyJoin ":" parts.tail) else raw

/-- The severity keywords of lines 57-61 of `score_claim.py`. -/
def severityKeywords : List String :=
  ["blacklist", "duplicate", "vendor", "external"]

/-- The severity assigned on lines 57-61 of `score_claim.py`: HIGH when
the derived type contains one of the four keywords, MEDIUM otherwise. -/
def deriveSeverity (raw : String) : AlarmSeverity :=
  if severityKeywords.any (fun k => strContains (deriveType raw) k) then
    AlarmSeverity.high
  else AlarmSeverity.medium

/-- The `FraudAlarm` built from a raw alarm string on lines 52-70 of
`score_claim.py`. -/
def mkEndpointAlarm (claim : ClaimData) (raw : String) : FraudAlarm :=
  { type := deriveType raw
    description := deriveDescription raw
    severity := deriveSeverity raw
    evidence := some
      [("claim_id", claim.claimant_id),
       ("timestamp",
        match claim.timestamp with
        | some t => toString t
        | none => "None")] }

/-! ## Explanation service and endpoint
(`src/services/explain.py`, `src/api/endpoints/explain_alarm.py`) -/

/-- The static explanation table of `get_explanation_for_alarm` in
`src/services/explain.py` (key, description). -/
def serviceExplanations : List (String × String) :=
  [("high_amount",
    "High claim amount often correlates with potential fraud risk due to unusually large or inflated claim values."),
   ("shady_provider",
    "The provider has a history of suspicious or fraudulent activity and is flagged for manual review."),
   ("delayed_report",
    "This claim was reported significantly after the incident date. Late reporting can sometimes indicate delayed or manipulated claims."),
   ("new_bank",
    "The payout bank account is recently created or unverified. New accounts may require additional validation to prevent identity misuse."),
   ("repeat_claimant",
    "This claimant has filed multiple claims within a short period. Frequent submissions may indicate claim pattern anomalies."),
   ("suspicious_keywords",
    "Claim notes include suspicious or exaggerated keywords that match known fraud indicators."),
   ("location_mismatch",
    "The claim’s reported location doesn’t match the claimant’s usual address. Possible case of fabricated or incorrect incident details.")]

/-- `get_explanation_for_alarm` of `src/services/explain.py`: normalizes
the name with `strip().lower()` and returns the `{type, description}`
entry, or `None` when unknown. -/
def getExplanationForAlarm (alarm_name : String) : Option (String × String) :=
  let alarm_key := pyLower (pyStrip alarm_name)
  match serviceExplanations.lookup alarm_key with
  | some d => some (alarm_key, d)
  | none => none

/-- One entry of `ALARM_EXPLANATIONS` in
`src/api/endpoints/explain_alarm.py`. -/
structure ExplainEntry where
  description : String
  severity : AlarmSeverity
  tips : List String
deriving DecidableEq, Repr

/-- `ALARM_EXPLANATIONS` of `src/api/endpoints/explain_alarm.py`; the
config values interpolated by the source f-strings are inlined at their
defaults (`HIGH_AMOUNT_THRESHOLD=10000.0`, `REPEAT_CLAIM_THRESHOLD=3`,
`LOCATION_DISTANCE_THRESHOLD=100.0`, `SIMILARITY_THRESHOLD=0.8`). -/
def ALARM_EXPLANATIONS : List (String × ExplainEntry) :=
  [("late_reporting",
    { description := "This claim was reported more than 7 days after the incident. Late reports can sometimes indicate made-up or delayed claims."
      severity := AlarmSeverity.medium
      tips := ["Provide a police report or dated evidence of the incident."] }),
   ("new_bank_account",
    { description := "The payout bank account is new or unverified. This could indicate identity issues."
      severity := AlarmSeverity.medium
      tips := ["Upload a recent bank statement or ID matching this account."] }),
   ("out_of_network_provider",
    { description := "The provider is not in your approved network, which may trigger a manual review."
      severity := AlarmSeverity.low
      tips := ["Attach referral letters or explain emergency circumstances."] }),
   ("blacklist_hit",
    { description := "The provider is on our fraud blacklist due to past overbilling or false claims."
      severity := AlarmSeverity.high
      tips := ["Contact support for alternative verified providers."] }),
   ("suspicious_text_phrases",
    { description := "Notes include words that match fraud-related phrases such as ’quick cash’ or ’staged accident’."
      severity := AlarmSeverity.medium
      tips := ["Use factual language and include receipts or witness details."] }),
   ("high_amount",
    { description := "The claim amount exceeds the policy threshold ($10000.0). Large claims need supporting documentation."
      severity := AlarmSeverity.high
      tips := ["Attach receipts, photos, or invoices for verification."] }),
   ("repeat_claimant",
    { description := "The claimant has filed more than 3 claims recently. Frequent filings may raise a review."
      severity := AlarmSeverity.medium
      tips := ["Include explanations or medical history for repeat cases."] }),
   ("suspicious_keywords",
    { description := "Specific keywords in claim notes suggest exaggeration or inconsistencies."
      severity := AlarmSeverity.medium
      tips := ["Review and clarify your description using objective terms."] }),
   ("location_mismatch",
    { description := "The incident location is more than 100.0 miles from your address, suggesting a possible mismatch."
      severity := AlarmSeverity.high
      tips := ["Submit travel receipts or photos proving your presence there."] }),
   ("duplicate_claims",
    { description := "The claim text is 80% similar to a previous one, which may indicate resubmission."
      severity := AlarmSeverity.high
      tips := ["Reference the prior claim ID if this is a follow-up."] }),
   ("vendor_fraud",
    { description := "This vendor has a high-risk score due to previous suspicious activity."
      severity := AlarmSeverity.high
      tips := ["Provide the vendor’s certification or use an in-network provider."] }),
   ("time_pattern_fraud",
    { description := "The claim filing time (e.g., 3 AM or during weekends) is unusual for normal processing."
      severity := AlarmSeverity.medium
      tips := ["Add a note explaining why it was filed at this time."] }),
   ("external_data_mismatch",
    { description := "Claim details do not match verified external data (e.g., no reported storm on date of accident)."
      severity := AlarmSeverity.high
      tips := ["Attach credible evidence such as weather or police reports."] })]

/-- `explain_alarm_endpoint` of `src/api/endpoints/explain_alarm.py`:
HTTP 400 for an empty alarm type, HTTP 404 (both modelled as
`Except.error` with status code) for an unknown one, and a `FraudAlarm`
with the explanation, severity and tips for a recognized one. -/
def explainAlarmEndpoint (alarm_type : String) : Except ℕ FraudAlarm :=
  if alarm_type = "" then Except.error 400
  else
    let alarm_key := pyReplaceChar ' ' '_' (pyLower alarm_type)
    match ALARM_EXPLANATIONS.lookup alarm_key with
    | none => Except.error 404
    | some e =>
      Except.ok
        { type := alarm_key
          description := e.description ++ " Suggested next steps: "
            ++ pyJoin "; " e.tips ++ "."
          severity := e.severity
          evidence := some [("source", "internal_guidelines_v1")] }

/-! ## Helper lemmas -/

/-- Adding an even integer commutes with round-half-to-even. -/
theorem roundHalfEven_add_int (x : ℚ) (n : ℤ) (hn : Even n) :
    roundHalfEven (x + (n : ℚ)) = roundHalfEven x + n := by
  unfold roundHalfEven
  rw [Int.floor_add_int x n]
  have hr : x + (n : ℚ) - ((⌊x⌋ + n : ℤ) : ℚ) = x - ((⌊x⌋ : ℤ) : ℚ) := by
    push_cast; ring
  rw [hr]
  have he : Even (⌊x⌋ + n) ↔ Even ⌊x⌋ := by
    rw [Int.even_add]; simp [hn]
  split_ifs <;> first | rfl | ring1 | tauto

/-- Appending one HIGH-severity alarm raises the risk score by exactly
0.30 (0.10 for the alarm, 0.20 for its severity; the two-decimal rounding
absorbs the shift because it is a whole number of hundredths). -/
theorem computeRiskScore_append_high (p : ℚ) (alarms : List FraudAlarm)
    (a : FraudAlarm) (ha : a.severity = AlarmSeverity.high) :
    computeRiskScore p (alarms ++ [a]) = computeRiskScore p alarms + 3/10 := by
  have hlen : (((alarms ++ [a]).length : ℕ) : ℚ) = ((alarms.length : ℕ) : ℚ) + 1 := by
    push_cast [List.length_append, List.length_singleton]; ring
  have hhc : ((highCount (alarms ++ [a]) : ℕ) : ℚ) = ((highCount alarms : ℕ) : ℚ) + 1 := by
    unfold highCount
    rw [List.filter_append]
    simp [List.filter, ha]
  simp only [computeRiskScore, pyRound2]
  rw [hlen, hhc]
  have key : (min p 100 / 100
        + ((((alarms.length : ℕ) : ℚ) + 1) * ALARM_WEIGHT
          + (((highCount alarms : ℕ) : ℚ) + 1) * HIGH_SEVERITY_WEIGHT)) * 100
      = (min p 100 / 100
        + (((alarms.length : ℕ) : ℚ) * ALARM_WEIGHT
          + ((highCount alarms : ℕ) : ℚ) * HIGH_SEVERITY_WEIGHT)) * 100
        + ((30 : ℤ) : ℚ) := by
    unfold ALARM_WEIGHT HIGH_SEVERITY_WEIGHT; push_cast; ring
  rw [key, roundHalfEven_add_int _ 30 (by decide)]
  push_cast; ring

/-! ## Claim theorems -/

/-- A representative HIGH-severity alarm (as built by the scoring
endpoint for a blacklist hit). -/
def sampleHighAlarm : FraudAlarm :=
  { type := "blacklist_hit"
    description := "Blacklisted provider"
    severity := AlarmSeverity.high }

/-- C1: the spec / unit-test decision scheme ("REJECT if probability ≥
0.75 OR high_count ≥ 2") versus the code.  At the repo's own test inputs
— probability 85 with no alarms, probability 80 with three HIGH alarms,
probability 60 with two HIGH alarms — `tests/unit/test_fraud_engine/`
`test_decision_policy.py` and the claim demand REJECT, but `get_decision`
returns REVIEW, because its `num_alarms <= 3` clause forces REVIEW
whenever there are at most three alarms and a probability threshold for
REJECT does not exist in the code. -/
theorem getDecision_contradicts_spec_thresholds :
    getDecisionD 85 [] = Decision.review
    ∧ specDecisionPolicy 85 [] = Decision.reject
    ∧ getDecisionD 80 [sampleHighAlarm, sampleHighAlarm, sampleHighAlarm]
        = Decision.review
    ∧ specDecisionPolicy 80 [sampleHighAlarm, sampleHighAlarm, sampleHighAlarm]
        = Decision.reject
    ∧ getDecisionD 60 [sampleHighAlarm, sampleHighAlarm] = Decision.review
    ∧ specDecisionPolicy 60 [sampleHighAlarm, sampleHighAlarm] = Decision.reject := by
  refine ⟨?_, ?_, ?_, ?_, ?_, ?_⟩ <;>
    norm_num [getDecisionD, getDecisionPair, specDecisionPolicy, computeRiskScore,
      pyRound2, roundHalfEven, THRESHOLD_APPROVE, THRESHOLD_REVIEW, ALARM_WEIGHT,
      HIGH_SEVERITY_WEIGHT, highCount, sampleHighAlarm]

/-- C7: the decision and reason (and the `return_details` dict) computed
by `get_decision` depend only on `(probability, alarms)`: the optional
claim-context argument — the only other input — never changes them (it
is read only by the log line), and the embedded computation is a pure
function, so identical inputs always yield identical output. -/
theorem decision_independent_of_claim_context :
    (∀ (p : ℚ) (alarms : List FraudAlarm) (c₁ c₂ : Option ClaimData),
      (getDecisionLogged p alarms c₁).1 = (getDecisionLogged p alarms c₂).1)
    ∧ (∀ (p : ℚ) (alarms : List FraudAlarm) (c₁ c₂ : Option ClaimData),
      getDecisionDetails p alarms c₁ = getDecisionDetails p alarms c₂)
    ∧ (∀ (p : ℚ) (alarms : List FraudAlarm),
      (getDecisionLogged p alarms none).1.1 = getDecisionD p alarms) :=
  ⟨fun _ _ _ _ => rfl, fun _ _ _ _ => rfl, fun _ _ => rfl⟩

/-- C8: appending one HIGH-severity alarm never decreases the decision
under the ordering APPROVE < REVIEW < REJECT. -/
theorem decision_monotone_in_high_alarms (p : ℚ) (alarms : List FraudAlarm)
    (a : FraudAlarm) (ha : a.severity = AlarmSeverity.high) :
    decisionLevel (getDecisionD p alarms)
      ≤ decisionLevel (getDecisionD p (alarms ++ [a])) := by
  simp only [getDecisionD, getDecisionPair,
    computeRiskScore_append_high p alarms a ha,
    List.length_append, List.length_singleton, THRESHOLD_APPROVE, THRESHOLD_REVIEW]
  by_cases hA : computeRiskScore p alarms < 30/100 ∨ (alarms.length = 0 ∧ p < 20)
  · rw [if_pos hA]
    exact Nat.zero_le _
  · have hA' := hA
    push_neg at hA'
    have hnewA : ¬(computeRiskScore p alarms + 3/10 < 30/100
        ∨ (alarms.length + 1 = 0 ∧ p < 20)) := by
      push_neg
      exact ⟨by linarith [hA'.1], fun h => absurd h (by omega)⟩
    by_cases hB : computeRiskScore p alarms < 70/100 ∨ alarms.length ≤ 3
    · rw [if_neg hA, if_pos hB, if_neg hnewA]
      split_ifs <;> simp [decisionLevel]
    · have hB' := hB
      push_neg at hB'
      have hnewB : ¬(computeRiskScore p alarms + 3/10 < 70/100
          ∨ alarms.length + 1 ≤ 3) := by
        push_neg
        exact ⟨by linarith [hB'.1], by omega⟩
      rw [if_neg hA, if_neg hB, if_neg hnewA, if_neg hnewB]

/-- C8 witness: the monotonicity theorem applied at probability 50 with
an empty alarm list and a concrete HIGH alarm. -/
theorem decision_monotone_in_high_alarms_witness :
    sampleHighAlarm.severity = AlarmSeverity.high
    ∧ decisionLevel (getDecisionD 50 [])
        ≤ decisionLevel (getDecisionD 50 ([] ++ [sampleHighAlarm])) :=
  ⟨rfl, decision_monotone_in_high_alarms 50 [] sampleHighAlarm rfl⟩

/-- C2 counterexample: with one alarm, both fallback paths inside
`get_fraud_probability` (model not loaded, and inference raising) return
10.0 — the 0-100 percentage scale — not `min(1.0, 1 * 0.10) = 0.1` as the
claim states. -/
theorem fallback_prob_not_unit_scale :
    getFraudProbability true none [sampleHighAlarm] = 10
    ∧ getFraudProbability false none [sampleHighAlarm] = 10
    ∧ min 1 ((1 : ℚ) * (1/10)) = 1/10
    ∧ (10 : ℚ) ≠ 1/10 := by
  refine ⟨?_, ?_, by norm_num, by norm_num⟩ <;>
    norm_num [getFraudProbability, fallbackProb]

/-- C2 amended: the fallback used when the selected backend is not
loaded or its call raises is `_fallback_prob`, which returns
`min(100.0, num_alarms * 10.0)` — exactly `100 ×` the claimed
`min(1.0, num_alarms * 0.10)`, i.e. the claimed heuristic on a 0-100
percentage scale.  The endpoint branch `min(1.0, len(alarms) * 0.1)`
does equal the claimed value, but it is unreachable: its guard
`require_ml_model` either returns `True` or raises HTTP 503, never
`False`. -/
theorem fallback_prob_percent_scale :
    (∀ alarms : List FraudAlarm,
      fallbackProb alarms = 100 * min 1 ((alarms.length : ℚ) * (1/10)))
    ∧ (∀ alarms : List FraudAlarm,
      endpointFallbackProb alarms = min 1 ((alarms.length : ℚ) * (1/10)))
    ∧ (∀ (loaded : Bool) (mp : Option ℚ) (alarms : List FraudAlarm),
      loaded = false ∨ mp = none →
        getFraudProbability loaded mp alarms = fallbackProb alarms)
    ∧ (∀ (env : String) (mlE mlL : Bool),
      requireMlModel env mlE mlL ≠ Except.ok false) := by
  refine ⟨?_, fun _ => rfl, ?_, ?_⟩
  · intro alarms
    unfold fallbackProb
    rcases le_total ((alarms.length : ℚ) * 10) 100 with h | h
    · rw [min_eq_right h, min_eq_right (by linarith)]
      ring
    · rw [min_eq_left h, min_eq_left (by linarith)]
      norm_num
  · rintro loaded mp alarms (rfl | rfl)
    · simp [getFraudProbability]
    · cases loaded <;> simp [getFraudProbability]
  · intro env mlE mlL
    unfold requireMlModel
    split_ifs <;> simp

/-- C2 witness: the amended fallback equation applied with a loaded model
whose inference call raised, on a one-alarm list. -/
theorem fallback_prob_percent_scale_witness :
    (true = false ∨ (none : Option ℚ) = none)
    ∧ getFraudProbability true none [sampleHighAlarm]
        = fallbackProb [sampleHighAlarm] :=
  ⟨Or.inr rfl,
   fallback_prob_percent_scale.2.2.1 true none [sampleHighAlarm] (Or.inr rfl)⟩

/-- C3: with three alarms and no loaded model the computed probability is
30.0 — far above 1 — and `FraudResponse.validate_probability`, the
response model's own [0,1] assertion, rejects it, so the endpoint raises
instead of returning an in-range scoring result.  The validator does
accept the same value expressed on the unit scale (0.30), confirming the
two modules disagree about the probability scale. -/
theorem fallback_prob_violates_response_bounds :
    getFraudProbability false none [sampleHighAlarm, sampleHighAlarm, sampleHighAlarm] = 30
    ∧ (validateProbability 30).isOk = false
    ∧ ¬((30 : ℚ) ≤ 1)
    ∧ validateProbability (30/100) = Except.ok (30/100) := by
  refine ⟨?_, ?_, by norm_num, ?_⟩
  · norm_num [getFraudProbability, fallbackProb]
  · norm_num [validateProbability, Except.isOk, Except.toBool]
  · norm_num [validateProbability, pyRound3, roundHalfEven]

/-- Appending the `+=` of successful checks distributes over
`collectUntilError`. -/
theorem collectUntilError_ok_append (pre : List (List String))
    (rest : List (Except Unit (List String))) :
    collectUntilError (pre.map Except.ok ++ rest)
      = pre.flatten ++ collectUntilError rest := by
  induction pre with
  | nil => simp [collectUntilError]
  | cons h t ih => simp [collectUntilError, ih]

/-- A benign claim that triggers none of the legacy checks. -/
def benignClaim : ClaimData :=
  { claimant_id := "user_ok"
    amount := 100
    provider := "Trusted Clinic" }

/-- C4 counterexample: when the first modular check raises while the
second one succeeds and produces a time-pattern alarm, `check_all_alarms`
returns no alarms at all — the surviving check's alarm is lost — whereas
with the first check merely silent the second check's alarm is kept.  So
a failing check does abort the remaining checks, contrary to the claim. -/
theorem modular_check_failure_drops_later_alarms :
    checkAllAlarms benignClaim none (Except.ok [])
        [Except.error (), Except.ok ["[TIME-PATTERN] Claim filed at unusual hour"]]
      = Except.ok []
    ∧ checkAllAlarms benignClaim none (Except.ok [])
        [Except.ok [], Except.ok ["[TIME-PATTERN] Claim filed at unusual hour"]]
      = Except.ok ["[TIME-PATTERN] Claim filed at unusual hour"] := by
  constructor <;> rfl

/-- `legacyAlarms` with a raising NLP phrase check behaves exactly as on
a claim without notes: the check's own handler suppresses its alarm and
nothing else changes. -/
theorem legacyAlarms_nlp_error (claim : ClaimData) (bl : List String) :
    legacyAlarms claim bl (Except.error ())
      = legacyAlarms { claim with notes := "" } bl (Except.ok []) := by
  have hempty : pyLower (pyStrip "") = "" := rfl
  unfold legacyAlarms
  simp [hempty]

/-- C4 amended: the failure isolation `check_all_alarms` actually
provides.  (i) The 8 modular checks share one `try`: a raising check
keeps the alarms of the checks before it and drops every later modular
check.  (ii) The NLP phrase check is individually guarded: its raise is
equivalent to the claim having no notes.  (iii) The blacklist lookup
(`get_blacklist_providers`) is unguarded: its raise propagates out of the
whole function. -/
theorem check_isolation_actual_behavior :
    (∀ (claim : ClaimData) (bl : Option (Except Unit (List String)))
        (nlp : Except Unit (List String)) (pre : List (List String))
        (post : List (Except Unit (List String))),
      checkAllAlarms claim bl nlp (pre.map Except.ok ++ Except.error () :: post)
        = checkAllAlarms claim bl nlp (pre.map Except.ok))
    ∧ (∀ (claim : ClaimData) (bl : Option (Except Unit (List String)))
        (mods : List (Except Unit (List String))),
      checkAllAlarms claim bl (Except.error ()) mods
        = checkAllAlarms { claim with notes := "" } bl (Except.ok []) mods)
    ∧ (∀ (claim : ClaimData) (nlp : Except Unit (List String))
        (mods : List (Except Unit (List String))),
      checkAllAlarms claim (some (Except.error ())) nlp mods
        = Except.error ()) := by
  refine ⟨?_, ?_, ?_⟩
  · intro claim bl nlp pre post
    have hc : collectUntilError (pre.map Except.ok ++ Except.error () :: post)
        = collectUntilError (pre.map Except.ok) := by
      rw [collectUntilError_ok_append]
      have h2 := collectUntilError_ok_append pre []
      simp [collectUntilError] at h2 ⊢
      exact h2.symm
    simp only [checkAllAlarms, hc]
  · intro claim bl mods
    simp only [checkAllAlarms, legacyAlarms_nlp_error]
  · intro claim nlp mods
    rfl

/-- C5 counterexample: when the repeat-count DB query fails (its own
handler keeps `repeat_count = 0`), the features are still computed from
the claim — `amount_normalized = 1` for a 5000 claim — so an internal
step failed yet the result is not the all-default `zeroFeatures`. -/
theorem db_failure_features_not_all_zero :
    (extract_features { claimant_id := "u2", amount := 5000 } []
        (some (Except.error ())) (Except.ok defaultAnalysis)
        (Except.ok none)).amount_normalized = 1
    ∧ zeroFeatures.amount_normalized = 0 := by
  constructor
  · norm_num [extract_features, pyRound2, pyRound3, roundHalfEven,
      defaultAnalysis, Bind.bind, Except.bind]
  · rfl

/-- C5 amended: a raise in any unguarded step — the `analyze_text` call
or the geo-distance lookup — makes `extract_features` return the
all-default `zeroFeatures` instead of propagating; the repeat-count DB
query, however, has its own handler, and its failure only forces
`repeat_count = 0` while every other field is computed normally. -/
theorem extract_features_failure_behavior :
    (∀ (claim : ClaimData) (alarms : List String)
        (dbR : Option (Except Unit ℕ)) (geo : Except Unit (Option ℚ)),
      extract_features claim alarms dbR (Except.error ()) geo = zeroFeatures)
    ∧ (∀ (claim : ClaimData) (alarms : List String)
        (dbR : Option (Except Unit ℕ)) (nr : AnalysisResult),
      extract_features claim alarms dbR (Except.ok nr) (Except.error ())
        = zeroFeatures)
    ∧ (∀ (claim : ClaimData) (alarms : List String)
        (nlp : Except Unit AnalysisResult) (geo : Except Unit (Option ℚ)),
      extract_features claim alarms (some (Except.error ())) nlp geo
        = extract_features claim alarms (some (Except.ok 0)) nlp geo) := by
  refine ⟨?_, ?_, ?_⟩ <;> intros <;> rfl

/-- C6 counterexample: the high-amount alarm and the out-of-network alarm
are both assigned MEDIUM by the endpoint's severity rule — the claim says
high-amount gets HIGH and out-of-network gets LOW, and LOW is in fact
never assigned. -/
theorem high_amount_out_network_severity_mismatch :
    deriveSeverity "[HIGH-AMOUNT] Claim value $15,000.00 exceeds static threshold ($10,000.00)."
      = AlarmSeverity.medium
    ∧ deriveSeverity "[OUT-NETWORK] Provider ’Out-Of-Network Clinic’ not in approved insurer network"
      = AlarmSeverity.medium
    ∧ AlarmSeverity.medium ≠ AlarmSeverity.high
    ∧ AlarmSeverity.medium ≠ AlarmSeverity.low := by
  exact ⟨by decide, by decide, by decide, by decide⟩

/-- C6 amended: the endpoint assigns HIGH exactly when the derived alarm
type contains "blacklist", "duplicate", "vendor" or "external" as a
substring and MEDIUM otherwise; LOW is never assigned.  Consequently the
blacklist, duplicate-claims, vendor-fraud and external-mismatch alarms
get HIGH, while the high-amount alarm (both variants) and the
out-of-network alarm get MEDIUM. -/
theorem severity_assignment_actual :
    (∀ raw, deriveSeverity raw ≠ AlarmSeverity.low)
    ∧ (∀ raw, deriveSeverity raw = AlarmSeverity.high
        ↔ severityKeywords.any (fun k => strContains (deriveType raw) k) = true)
    ∧ deriveSeverity "[BLACKLIST] Provider ’shady_clinic’ flagged (blacklist match: shady_clinic)"
        = AlarmSeverity.high
    ∧ deriveSeverity "[DUPLICATE-CLAIM] 85.0% text similarity to prior claim (threshold: 80.0%)."
        = AlarmSeverity.high
    ∧ deriveSeverity "[VENDOR-FRAUD] Provider ’shady_clinic’ risk=0.85 – Blacklist hit."
        = AlarmSeverity.high
    ∧ deriveSeverity "[EXTERNAL-MISMATCH] Weather-sensitive claim (’accident’) during sunny weather on 2023-10-10 at Los Angeles, CA."
        = AlarmSeverity.high
    ∧ deriveSeverity "[LATE-REPORT] Reported 10 days after incident (limit: 7 days)"
        = AlarmSeverity.medium
    ∧ deriveSeverity "[HIGH-AMOUNT] Claim value $9,000.00 is 4.5× higher than 12-month claimant average ($2,000.00)."
        = AlarmSeverity.medium := by
  refine ⟨?_, ?_, by decide, by decide, by decide, by decide, by decide, by decide⟩
  · intro raw
    unfold deriveSeverity
    split <;> simp
  · intro raw
    unfold deriveSeverity
    split <;> simp_all

/-- A lookup in an association list misses exactly when the key is not
among the stored keys. -/
theorem lookup_eq_none_iff {α : Type} (l : List (String × α)) (k : String) :
    l.lookup k = none ↔ k ∉ l.map Prod.fst := by
  induction l with
  | nil => simp [List.lookup]
  | cons hd tl ih =>
    cases hd with
    | mk a b =>
      by_cases h : k = a
      · subst h
        simp [List.lookup]
      · have hb : (k == a) = false := beq_eq_false_iff_ne.mpr h
        simp [List.lookup, hb, h, ih]

/-- C9: both explanation layers are total over arbitrary alarm-type
strings.  The service returns `None` exactly for unknown (normalized)
names and an explanation for known ones; the endpoint returns a
structured HTTP 404 for unknown types, a `FraudAlarm` explanation for
recognized ones, and HTTP 400 for the empty string — never an unhandled
exception (the embedded functions are total). -/
theorem explanation_lookup_total :
    (∀ s, pyLower (pyStrip s) ∉ serviceExplanations.map Prod.fst →
      getExplanationForAlarm s = none)
    ∧ (∀ s, pyLower (pyStrip s) ∈ serviceExplanations.map Prod.fst →
      (getExplanationForAlarm s).isSome = true)
    ∧ (∀ s, s ≠ "" →
      pyReplaceChar ' ' '_' (pyLower s) ∉ ALARM_EXPLANATIONS.map Prod.fst →
      explainAlarmEndpoint s = Except.error 404)
    ∧ (∀ s, s ≠ "" →
      pyReplaceChar ' ' '_' (pyLower s) ∈ ALARM_EXPLANATIONS.map Prod.fst →
      (explainAlarmEndpoint s).isOk = true)
    ∧ explainAlarmEndpoint "" = Except.error 400 := by
  refine ⟨?_, ?_, ?_, ?_, rfl⟩
  · intro s h
    simp only [getExplanationForAlarm, (lookup_eq_none_iff _ _).mpr h]
  · intro s h
    rcases ho : serviceExplanations.lookup (pyLower (pyStrip s)) with _ | d
    · exact absurd ((lookup_eq_none_iff _ _).mp ho) (by simpa using h)
    · simp only [getExplanationForAlarm, ho, Option.isSome_some]
  · intro s hs h
    simp only [explainAlarmEndpoint, if_neg hs, (lookup_eq_none_iff _ _).mpr h]
  · intro s hs h
    rcases ho : ALARM_EXPLANATIONS.lookup (pyReplaceChar ' ' '_' (pyLower s))
        with _ | e
    · exact absurd ((lookup_eq_none_iff _ _).mp ho) (by simpa using h)
    · simp only [explainAlarmEndpoint, if_neg hs, ho, Except.isOk, Except.toBool]

/-- C9 witness: the theorem applied at the unknown name "mystery alarm"
(service and endpoint miss) and the recognized type "high amount"
(endpoint hit after normalization). -/
theorem explanation_lookup_total_witness :
    getExplanationForAlarm "mystery_alarm" = none
    ∧ explainAlarmEndpoint "mystery alarm" = Except.error 404
    ∧ (explainAlarmEndpoint "high amount").isOk = true :=
  ⟨explanation_lookup_total.1 "mystery_alarm" (by decide),
   explanation_lookup_total.2.2.1 "mystery alarm" (by decide) (by decide),
   explanation_lookup_total.2.2.2.1 "high amount" (by decide) (by decide)⟩

/-- C10: for blank input — empty or whitespace-only — `analyze_text`
returns the all-default analysis (`suspicious_phrases = []`,
`keyword_count = 0`, `max_similarity = 0.0`, `sentiment = 0.0`,
`is_suspicious = False`, `text_length = 0`) for every NLP environment,
i.e. without consulting the cache, the spaCy pipeline, the
SentenceTransformer or TextBlob. -/
theorem analyze_text_blank_default (env : NlpEnv) (text : String)
    (past : List String) (h : isBlankStr text = true) :
    analyzeText env text past = defaultAnalysis := by
  unfold analyzeText
  rw [if_pos (Or.inr h)]

/-- An inert NLP environment used to instantiate the blank-input theorem. -/
def trivialNlpEnv : NlpEnv :=
  { cacheGet := fun _ => none
    matcherPhrases := fun _ => none
    entitiesOf := fun _ => []
    encodeOk := fun _ => Except.ok ()
    encodeSim := fun _ _ => Except.ok 0
    sentimentOf := fun _ => Except.ok 0
    simThreshold := 4/5 }

/-- C10 witness: the blank-input theorem applied to a whitespace string
with a non-empty history. -/
theorem analyze_text_blank_default_witness :
    isBlankStr " \t " = true
    ∧ analyzeText trivialNlpEnv " \t " ["prior note"] = defaultAnalysis :=
  ⟨by decide,
   analyze_text_blank_default trivialNlpEnv " \t " ["prior note"] (by decide)⟩

end FraudChatbot
